import Mathlib

/-!
Shallow embedding of the authored glue code of this repository: the
question-answering-with-chat-history notebook
(docs/docs/use_cases/question_answering/chat_history.ipynb) and the
fallbacks notebook.  The repository's own code is a handful of Python
functions and chain compositions; the library combinators they call
(chain composition, prompt rendering, fallback wrapping) are part of the
wider project but their implementation is not under src/, so those are
modelled from the spec's descriptions, as marked in the doc comments.
-/

namespace LangchainGlue

/-- Chat-message roles used by the notebooks (system / human / ai messages). -/
inductive Role
  | system
  | human
  | ai
  deriving DecidableEq, Repr

/-- A chat message: a role together with its string content. -/
structure Message where
  role : Role
  content : String
  deriving DecidableEq, Repr

/-- A retrieved document; the notebooks only ever read its page_content field. -/
structure Document where
  page_content : String
  deriving DecidableEq, Repr

/-- Exception classes that appear in the notebooks: RateLimitError from the
OpenAI client, KeyboardInterrupt (used as the designated class in the
fallbacks example), and Python KeyError from a dict lookup. -/
inductive Exc
  | rateLimitError
  | keyboardInterrupt
  | keyError (key : String)
  deriving DecidableEq, Repr

/-- The function format_docs of chat_history.ipynb:
joins the page_content of the documents with a blank line between them. -/
def format_docs (docs : List Document) : String :=
  String.intercalate "\n\n" (docs.map Document.page_content)

/-- A value stored under the chat_history key of the input dict:
either Python None or a list of messages. -/
inductive HistVal
  | nullVal
  | msgs (ms : List Message)
  deriving DecidableEq, Repr

/-- The input dict of the QA chain.  A field of none models an absent key;
some models a present key with the given value. -/
structure QAInput where
  question : Option String
  chat_history : Option HistVal
  deriving DecidableEq, Repr

/-- Python truthiness of a chat_history value: None and the empty list are
falsy, a non-empty list is truthy. -/
def HistVal.truthy : HistVal → Bool
  | nullVal => false
  | msgs ms => !ms.isEmpty

/-- Python truthiness of dict.get applied to chat_history: an absent key
yields None, which is falsy. -/
def getTruthy : Option HistVal → Bool
  | none => false
  | some v => v.truthy

/-- What the routing function returns: either the contextualize sub-chain
(which the surrounding LCEL chain then invokes) or the question string. -/
inductive CtxRoute
  | subchain
  | question (q : String)
  deriving DecidableEq, Repr

/-- The function contextualized_question of chat_history.ipynb:
if input.get("chat_history") is truthy it returns contextualize_q_chain,
otherwise it returns input["question"], which raises KeyError when the
question key is absent. -/
def contextualized_question (input : QAInput) : Except Exc CtxRoute :=
  if getTruthy input.chat_history then Except.ok CtxRoute.subchain
  else
    match input.question with
    | some q => Except.ok (CtxRoute.question q)
    | none => Except.error (Exc.keyError "question")

/-- Variable bindings available when a prompt template is rendered:
the latest question, the chat-history messages, and the retrieved context
(unused by templates that do not mention it). -/
structure PromptInput where
  question : String
  chat_history : List Message
  context : String
  deriving Repr

/-- Modelled from the spec: one entry of ChatPromptTemplate.from_messages,
whose implementation is not under src/.  An entry is either a role/template
pair rendered to a single message, or a MessagesPlaceholder that splices in
the chat-history messages. -/
inductive PromptItem
  | tmpl (role : Role) (content : PromptInput → String)
  | placeholder

/-- Modelled from the spec: rendering a ChatPromptTemplate maps each entry to
its messages in order; a placeholder entry contributes the chat-history list,
a template entry contributes one message with its variables substituted. -/
def renderPrompt (items : List PromptItem) (inp : PromptInput) : List Message :=
  (items.map fun it =>
    match it with
    | PromptItem.tmpl r c => [Message.mk r (c inp)]
    | PromptItem.placeholder => inp.chat_history).flatten

/-- The system prompt string contextualize_q_system_prompt of
chat_history.ipynb (its backslash line continuations resolved). -/
def contextualize_q_system_prompt : String :=
  "Given a chat history and the latest user question which might reference context in the chat history, formulate a standalone question which can be understood without the chat history. Do NOT answer the question, just reformulate it if needed and otherwise return it as is."

/-- The system prompt qa_system_prompt of chat_history.ipynb with its
context variable substituted; the template ends with a newline followed
by the retrieved context. -/
def qa_system_prompt_filled (context : String) : String :=
  "You are an assistant for question-answering tasks. Use the following pieces of retrieved context to answer the question. If you don\x27t know the answer, just say that you don\x27t know. Use three sentences maximum and keep the answer concise.\n" ++ context

/-- The prompt contextualize_q_prompt of chat_history.ipynb: system message,
MessagesPlaceholder for chat_history, then the human question. -/
def contextualize_q_prompt : List PromptItem :=
  [PromptItem.tmpl Role.system (fun _ => contextualize_q_system_prompt),
   PromptItem.placeholder,
   PromptItem.tmpl Role.human (fun inp => inp.question)]

/-- The prompt qa_prompt of chat_history.ipynb: system message containing the
retrieved context, MessagesPlaceholder for chat_history, then the human
question. -/
def qa_prompt : List PromptItem :=
  [PromptItem.tmpl Role.system (fun inp => qa_system_prompt_filled inp.context),
   PromptItem.placeholder,
   PromptItem.tmpl Role.human (fun inp => inp.question)]

/-- Modelled from the spec: StrOutputParser, not under src/, extracts the
string content of a chat-model message. -/
def parseStrOutput (m : Message) : String := m.content

/-- Modelled from the spec: extracting a PromptInput from the input dict when
a prompt over the variables question and chat_history (and an already-computed
context) is rendered; a missing variable raises a KeyError. -/
def promptInputOfQA (input : QAInput) (context : String) : Except Exc PromptInput :=
  match input.question, input.chat_history with
  | some q, some (HistVal.msgs ms) => Except.ok (PromptInput.mk q ms context)
  | none, _ => Except.error (Exc.keyError "question")
  | some _, none => Except.error (Exc.keyError "chat_history")
  | some _, some HistVal.nullVal => Except.error (Exc.keyError "chat_history")

/-- The sub-chain contextualize_q_chain = contextualize_q_prompt | llm |
StrOutputParser() of chat_history.ipynb, with the chat model passed in as an
oracle: render the prompt, call the model, parse the message to a string. -/
def contextualize_q_chain (llm : List Message → Message) (pin : PromptInput) :
    String :=
  parseStrOutput (llm (renderPrompt contextualize_q_prompt pin))

/-- The first stage of rag_chain in chat_history.ipynb: the value that the
retriever receives.  Per the routing function, a truthy chat history routes
the whole input through contextualize_q_chain, otherwise the raw question
string is passed on. -/
def contextualizedQuery (llm : List Message → Message) (input : QAInput) :
    Except Exc String :=
  match contextualized_question input with
  | Except.error e => Except.error e
  | Except.ok (CtxRoute.question q) => Except.ok q
  | Except.ok CtxRoute.subchain =>
      match promptInputOfQA input "" with
      | Except.error e => Except.error e
      | Except.ok pin => Except.ok (contextualize_q_chain llm pin)

/-- The mutable state an invocation of the QA chain could in principle
touch: the input dict (which holds the chat-history list).  Invocation is
embedded in state-passing style over this store so that absence of mutation
is an explicit theorem. -/
structure Store where
  input : QAInput
  deriving DecidableEq, Repr

/-- The contextualize stage of rag_chain in state-passing form: it computes
the query for RunnablePassthrough.assign from the input dict held in the
store, only reading the store. -/
def contextualized_question_step (llm : List Message → Message) (s : Store) :
    Except Exc String × Store :=
  (contextualizedQuery llm s.input, s)

/-- The remainder of rag_chain once the contextualized query is known:
retrieve, format the context, render qa_prompt, call the model; the store is
only read. -/
def answer_step (retriever : String → List Document)
    (llm : List Message → Message) (query : String) (s : Store) :
    Except Exc Message × Store :=
  match promptInputOfQA s.input (format_docs (retriever query)) with
  | Except.error e => (Except.error e, s)
  | Except.ok pin => (Except.ok (llm (renderPrompt qa_prompt pin)), s)

/-- The full chain rag_chain of chat_history.ipynb in state-passing form:
the contextualize step feeds the answer step, threading the store. -/
def rag_chain_invoke_st (retriever : String → List Document)
    (llm : List Message → Message) (s : Store) :
    Except Exc Message × Store :=
  match contextualized_question_step llm s with
  | (Except.error e, s1) => (Except.error e, s1)
  | (Except.ok query, s1) => answer_step retriever llm query s1

/-- Which chain of a fallback wrapper was called, for stating call-order and
call-count properties. -/
inductive Call
  | primaryCall
  | fallbackCall
  deriving DecidableEq, Repr

/-- Modelled from the spec: with_fallbacks, whose implementation is not under
src/.  Per the spec, the alternate chain is invoked exactly when the primary
chain raises an error of a designated class; other errors propagate.  The
result is paired with the trace of chain invocations, in order. -/
def with_fallbacks_trace {α β : Type} (primary fallback : α → Except Exc β)
    (handled : Exc → Bool) (x : α) : List Call × Except Exc β :=
  match primary x with
  | Except.ok y => ([Call.primaryCall], Except.ok y)
  | Except.error e =>
      if handled e then ([Call.primaryCall, Call.fallbackCall], fallback x)
      else ([Call.primaryCall], Except.error e)

/-- Modelled from the spec: the result of invoking a fallback-wrapped
runnable (the trace projected away). -/
def with_fallbacks {α β : Type} (primary fallback : α → Except Exc β)
    (handled : Exc → Bool) (x : α) : Except Exc β :=
  (with_fallbacks_trace primary fallback handled x).2

/-- The default designated classes of with_fallbacks: every exception in the
model is handled, as in the first fallbacks example. -/
def handlesAll : Exc → Bool := fun _ => true

/-- The designated classes in the exceptions_to_handle=(KeyboardInterrupt,)
example of the fallbacks notebook. -/
def handlesKeyboardInterruptOnly : Exc → Bool
  | Exc.keyboardInterrupt => true
  | _ => false

/-- Modelled from the spec: a chain built with the composition operator, as
data.  A chain is a single processing step or the composition r | s of two
chains. -/
inductive RunnableComp : Type → Type → Type 1
  | step {α β : Type} (f : α → Except Exc β) : RunnableComp α β
  | seq {α β γ : Type} (r : RunnableComp α β) (s : RunnableComp β γ) :
      RunnableComp α γ

/-- Modelled from the spec: invoking a composed chain runs the left part
first and feeds its output to the right part; an error short-circuits. -/
def RunnableComp.invoke : {α β : Type} → RunnableComp α β → α → Except Exc β
  | _, _, RunnableComp.step f, x => f x
  | _, _, RunnableComp.seq r s, x => (r.invoke x).bind s.invoke

/-! Theorems -/

/-- Helper: the accumulator recursion inside String.intercalate, unfolded one
element at a time. -/
theorem intercalate_go_cons : ∀ (as : List String) (a acc s : String),
    String.intercalate.go acc s (a :: as) =
      acc ++ s ++ String.intercalate.go a s as := by
  intro as
  induction as with
  | nil => intro a acc s; simp [String.intercalate.go]
  | cons b bs ih =>
      intro a acc s
      rw [show String.intercalate.go acc s (a :: b :: bs) =
            String.intercalate.go (acc ++ s ++ a) s (b :: bs) from rfl]
      rw [ih b (acc ++ s ++ a) s, ih b a s]
      simp [String.append_assoc]

/-- C8: format_docs joins page_content fields in order with the two-newline
separator: it is empty on the empty list, the single page_content on a
singleton, and prepends page_content plus the separator on a cons with a
non-empty tail. -/
theorem claim_C8 :
    format_docs [] = "" ∧
    (∀ d : Document, format_docs [d] = d.page_content) ∧
    (∀ (d : Document) (ds : List Document), ds ≠ [] →
      format_docs (d :: ds) = d.page_content ++ "\n\n" ++ format_docs ds) := by
  refine ⟨rfl, fun d => rfl, ?_⟩
  intro d ds hne
  match ds with
  | [] => exact absurd rfl hne
  | e :: es =>
      show String.intercalate "\n\n"
          (d.page_content :: e.page_content :: es.map Document.page_content) = _
      rw [show String.intercalate "\n\n"
            (d.page_content :: e.page_content :: es.map Document.page_content) =
          String.intercalate.go d.page_content "\n\n"
            (e.page_content :: es.map Document.page_content) from rfl]
      rw [intercalate_go_cons]
      rfl

/-- Witness for C8 on two concrete documents. -/
theorem claim_C8_witness :
    format_docs [Document.mk "chunk one", Document.mk "chunk two"] =
      "chunk one\n\nchunk two" := by
  rw [claim_C8.2.2 (Document.mk "chunk one") [Document.mk "chunk two"]
    (List.cons_ne_nil _ _)]
  rw [claim_C8.2.1 (Document.mk "chunk two")]
  rfl

/-- C1: the contextualize question step is a single conditional branch: with
a present, non-empty chat history the input is routed through the
contextualize sub-chain (prompt, model call, output parser) to reformulate
the question; otherwise the question value is returned unchanged, whatever
the model oracle, so no reformulation sub-chain runs. -/
theorem claim_C1 (input : QAInput) (llm : List Message → Message) :
    (∀ ms, input.chat_history = some (HistVal.msgs ms) → ms ≠ [] →
      contextualized_question input = Except.ok CtxRoute.subchain ∧
      (∀ q, input.question = some q →
        contextualizedQuery llm input =
          Except.ok (contextualize_q_chain llm (PromptInput.mk q ms "")))) ∧
    ((input.chat_history = none ∨ input.chat_history = some HistVal.nullVal ∨
        input.chat_history = some (HistVal.msgs [])) →
      ∀ q, input.question = some q →
        contextualizedQuery llm input = Except.ok q) := by
  constructor
  · intro ms hh hne
    have hr : contextualized_question input = Except.ok CtxRoute.subchain := by
      cases ms with
      | nil => exact absurd rfl hne
      | cons m ms' =>
          simp [contextualized_question, getTruthy, hh, HistVal.truthy]
    refine ⟨hr, ?_⟩
    intro q hq
    simp [contextualizedQuery, hr, promptInputOfQA, hq, hh,
      contextualize_q_chain]
  · rintro (h | h | h) q hq <;>
    · have hr : contextualized_question input =
          Except.ok (CtxRoute.question q) := by
        simp [contextualized_question, getTruthy, h, HistVal.truthy, hq]
      simp [contextualizedQuery, hr]

/-- Witness for C1: a one-message history routes to the sub-chain; an empty
history returns the question unchanged. -/
theorem claim_C1_witness :
    contextualized_question
        (QAInput.mk (some "What is meant by large")
          (some (HistVal.msgs [Message.mk Role.human "What does LLM stand for?"]))) =
      Except.ok CtxRoute.subchain ∧
    contextualizedQuery (fun _ => Message.mk Role.ai "")
        (QAInput.mk (some "What is Task Decomposition?")
          (some (HistVal.msgs []))) =
      Except.ok "What is Task Decomposition?" := by
  constructor
  · exact ((claim_C1 _ (fun _ => Message.mk Role.ai "")).1 _ rfl
      (List.cons_ne_nil _ _)).1
  · exact (claim_C1 _ _).2 (Or.inr (Or.inr rfl)) _ rfl

/-- C9: an absent chat_history key, a None value and an empty list are
treated identically: the routing function returns the question value, and it
raises KeyError for the question key when that key is absent too. -/
theorem claim_C9 (input : QAInput)
    (h : input.chat_history = none ∨ input.chat_history = some HistVal.nullVal ∨
         input.chat_history = some (HistVal.msgs [])) :
    (∀ q, input.question = some q →
      contextualized_question input = Except.ok (CtxRoute.question q)) ∧
    (input.question = none →
      contextualized_question input = Except.error (Exc.keyError "question")) := by
  have ht : getTruthy input.chat_history = false := by
    rcases h with h | h | h <;> simp [getTruthy, h, HistVal.truthy]
  constructor
  · intro q hq; simp [contextualized_question, ht, hq]
  · intro hq; simp [contextualized_question, ht, hq]

/-- Witness for C9: both keys absent raises KeyError for the question key. -/
theorem claim_C9_witness :
    contextualized_question (QAInput.mk none none) =
      Except.error (Exc.keyError "question") :=
  (claim_C9 (QAInput.mk none none) (Or.inl rfl)).2 rfl

/-- C2: if the primary chain raises an error of a designated class, the
fallback-wrapped runnable invokes the alternate chain on the same input and
returns its result instead of propagating the error. -/
theorem claim_C2 {α β : Type} (primary fallback : α → Except Exc β)
    (handled : Exc → Bool) (x : α) (e : Exc)
    (hp : primary x = Except.error e) (hh : handled e = true) :
    with_fallbacks primary fallback handled x = fallback x := by
  simp [with_fallbacks, with_fallbacks_trace, hp, hh]

/-- Witness for C2: a primary that raises RateLimitError with every class
designated falls back to the alternate answer. -/
theorem claim_C2_witness :
    with_fallbacks
        (fun _ : String => (Except.error Exc.rateLimitError : Except Exc String))
        (fun _ : String => Except.ok "the chicken crossed to reach the other side")
        handlesAll "Why did the chicken cross the road?" =
      Except.ok "the chicken crossed to reach the other side" := by
  rw [claim_C2
    (fun _ : String => (Except.error Exc.rateLimitError : Except Exc String))
    (fun _ : String => Except.ok "the chicken crossed to reach the other side")
    handlesAll "Why did the chicken cross the road?" Exc.rateLimitError rfl rfl]

/-- C3: an error outside the designated classes propagates to the caller and
the alternate chain is never invoked: the trace holds the primary call alone
and the result is the original error. -/
theorem claim_C3 {α β : Type} (primary fallback : α → Except Exc β)
    (handled : Exc → Bool) (x : α) (e : Exc)
    (hp : primary x = Except.error e) (hh : handled e = false) :
    with_fallbacks_trace primary fallback handled x =
      ([Call.primaryCall], Except.error e) ∧
    Call.fallbackCall ∉ (with_fallbacks_trace primary fallback handled x).1 := by
  have h : with_fallbacks_trace primary fallback handled x =
      ([Call.primaryCall], Except.error e) := by
    simp [with_fallbacks_trace, hp, hh]
  exact ⟨h, by rw [h]; simp⟩

/-- Witness for C3: with only KeyboardInterrupt designated, a RateLimitError
from the primary propagates and the alternate chain is not called. -/
theorem claim_C3_witness :
    with_fallbacks_trace
        (fun _ : String => (Except.error Exc.rateLimitError : Except Exc String))
        (fun _ : String => Except.ok "anthropic answer")
        handlesKeyboardInterruptOnly "Why did the kangaroo cross the road?" =
      ([Call.primaryCall], Except.error Exc.rateLimitError) :=
  (claim_C3
    (fun _ : String => (Except.error Exc.rateLimitError : Except Exc String))
    (fun _ : String => Except.ok "anthropic answer")
    handlesKeyboardInterruptOnly "Why did the kangaroo cross the road?"
    Exc.rateLimitError rfl rfl).1

/-- C4: call order is preserved: every invocation calls the primary chain
first, and when the primary succeeds the wrapped runnable returns the
primary result and the alternate chain is never invoked. -/
theorem claim_C4 {α β : Type} (primary fallback : α → Except Exc β)
    (handled : Exc → Bool) (x : α) :
    (with_fallbacks_trace primary fallback handled x).1.head? =
      some Call.primaryCall ∧
    ∀ y, primary x = Except.ok y →
      with_fallbacks_trace primary fallback handled x =
        ([Call.primaryCall], Except.ok y) := by
  constructor
  · unfold with_fallbacks_trace
    cases hp : primary x with
    | ok y => rfl
    | error e => cases hh : handled e <;> simp [hh]
  · intro y hy
    simp [with_fallbacks_trace, hy]

/-- Witness for C4: a succeeding primary returns its own answer with the
primary call alone in the trace. -/
theorem claim_C4_witness :
    with_fallbacks_trace
        (fun _ : String => (Except.ok "primary answer" : Except Exc String))
        (fun _ : String => Except.ok "fallback answer")
        handlesAll "Why did the turtle cross the road?" =
      ([Call.primaryCall], Except.ok "primary answer") :=
  (claim_C4 _ _ handlesAll _).2 _ rfl

/-- C6: no retry loop: in every invocation of the fallback wrapper the
primary chain appears at most once in the call trace and the alternate chain
at most once, so the primary is never re-invoked after a failure. -/
theorem claim_C6 {α β : Type} (primary fallback : α → Except Exc β)
    (handled : Exc → Bool) (x : α) :
    (with_fallbacks_trace primary fallback handled x).1.count
        Call.primaryCall ≤ 1 ∧
    (with_fallbacks_trace primary fallback handled x).1.count
        Call.fallbackCall ≤ 1 := by
  unfold with_fallbacks_trace
  cases hp : primary x with
  | ok y => simp
  | error e => cases hh : handled e <;> simp [hh]

/-- C5: a chain built with the composition operator applies its steps left to
right: invoking (prompt | model | parser) on x applies the output parser to
the model output on the prompt rendering of x, i.e. invoke acts as function
composition of the steps. -/
theorem claim_C5 {α β γ δ : Type} (promptStep : α → β) (modelStep : β → γ)
    (parseStep : γ → δ) (x : α) :
    (RunnableComp.seq
        (RunnableComp.seq (RunnableComp.step fun a => Except.ok (promptStep a))
          (RunnableComp.step fun b => Except.ok (modelStep b)))
        (RunnableComp.step fun c => Except.ok (parseStep c))).invoke x =
      Except.ok (parseStep (modelStep (promptStep x))) := rfl

/-- C7: invoking the QA chain does not mutate its input: the store (the input
dict together with the chat-history list it holds) after rag_chain_invoke_st
is the store passed in, for every retriever and model oracle. -/
theorem claim_C7 (retriever : String → List Document)
    (llm : List Message → Message) (s : Store) :
    (rag_chain_invoke_st retriever llm s).2 = s := by
  unfold rag_chain_invoke_st contextualized_question_step answer_step
  cases hq : contextualizedQuery llm s.input with
  | error e => rfl
  | ok query =>
      cases h2 : promptInputOfQA s.input (format_docs (retriever query)) <;>
        simp [h2]

/-- C10: both prompt templates render to exactly the system message, followed
by the chat-history messages in their given order, followed by a human
message holding the latest question. -/
theorem claim_C10 (inp : PromptInput) :
    renderPrompt contextualize_q_prompt inp =
      Message.mk Role.system contextualize_q_system_prompt ::
        (inp.chat_history ++ [Message.mk Role.human inp.question]) ∧
    renderPrompt qa_prompt inp =
      Message.mk Role.system (qa_system_prompt_filled inp.context) ::
        (inp.chat_history ++ [Message.mk Role.human inp.question]) := by
  constructor <;> simp [renderPrompt, contextualize_q_prompt, qa_prompt]

end LangchainGlue
